import Mathlib

/-!
Verification development for the chatbot-frontend repository.

The repository is a React single-page chat client.  The parts the
properties below speak about are embedded shallowly:

* `src/unnamed/part_001` — the axios API client (`api.ts`): `setAuthToken`,
  `refreshToken`, the 401 response interceptor, and the `Login` page's
  `handleLogin`.
* `src/src/pages/Chat.tsx` — the routed chat component: `fetchChat`,
  `deleteSession`, `sendMessage`, the session-switch click handler.
* `src/unnamed/part_003`, `src/unnamed/part_004` — near-duplicate variants
  of the chat component; `part_004`'s `fetchChatHistory` is the variant
  that sorts the flattened history.

Browser local storage is modelled as a function from keys to optional
string values; timestamps (ISO date strings compared through
`new Date(x).getTime()`) are modelled as natural numbers; backends are
modelled as oracles giving the outcome of the k-th transmission of a
request.  JavaScript string truthiness (`if (item.user_message)`) is
modelled explicitly: an absent or empty string is falsy.
-/

namespace ChatbotFrontend

/-! ### Browser local storage -/

/-- The browser `localStorage`: a partial map from keys to strings. -/
def Storage : Type := String → Option String

/-- Reads a key (`localStorage.getItem`). -/
def getItem (st : Storage) (k : String) : Option String := st k

/-- Writes a key (`localStorage.setItem`). -/
def setItem (st : Storage) (k v : String) : Storage :=
  fun k' => if k' = k then some v else st k'

/-- Deletes a key (`localStorage.removeItem`). -/
def removeItem (st : Storage) (k : String) : Storage :=
  fun k' => if k' = k then none else st k'

/-- Storage with no keys set. -/
def emptyStorage : Storage := fun _ => none

theorem getItem_setItem_self (st : Storage) (k v : String) :
    getItem (setItem st k v) k = some v := by
  simp [getItem, setItem]

theorem getItem_setItem_ne (st : Storage) {k k' : String} (v : String) (h : k' ≠ k) :
    getItem (setItem st k v) k' = getItem st k' := by
  simp [getItem, setItem, h]

theorem getItem_removeItem_self (st : Storage) (k : String) :
    getItem (removeItem st k) k = none := by
  simp [getItem, removeItem]

theorem getItem_removeItem_ne (st : Storage) {k k' : String} (h : k' ≠ k) :
    getItem (removeItem st k) k' = getItem st k' := by
  simp [getItem, removeItem, h]

/-! ### The API client (src/unnamed/part_001, `api.ts`) -/

/-- State of the axios client: the persisted storage plus the default
`Authorization` header (`api.defaults.headers.common["Authorization"]`). -/
structure ClientState where
  store : Storage
  authHeader : Option String

/-- The `setAuthToken` helper (part_001 lines 10–16): sets the default
`Authorization` header to `Bearer <token>`, or deletes it when the token
is `null`. -/
def setAuthToken (cs : ClientState) (token : Option String) : ClientState :=
  match token with
  | some t => { cs with authHeader := some ("Bearer " ++ t) }
  | none => { cs with authHeader := none }

/-- An HTTP failure as axios reports it: `status = none` models a network
error that produced no response (`error.response` undefined); `some n`
models an HTTP response with status `n`. -/
structure HttpError where
  status : Option Nat
deriving DecidableEq

/-- Outcome of one transmission of a request. -/
inductive ReqOutcome (α : Type) where
  | ok (data : α)
  | err (e : HttpError)
deriving DecidableEq

/-- The backend, as an oracle: `attempt k` is the outcome of the k-th
transmission of the original request (0-based), and `refresh k` is the
outcome of the k-th `POST /user/refresh` — on success it carries
`res.data.access_token`, which may be absent. -/
structure Backend (α : Type) where
  attempt : Nat → ReqOutcome α
  refresh : Nat → ReqOutcome (Option String)

/-- Bookkeeping for one request's lifecycle through the interceptor. -/
structure RunState where
  client : ClientState
  refreshCount : Nat
  attemptCount : Nat
  headersUsed : List (Option String)

/-- The `refreshToken` function (part_001 lines 19–37): reads
`refresh_token` from storage (returning `null` without any network call
when absent), POSTs `/user/refresh`, and on a response containing an
`access_token` stores it and installs it as the default header; any
thrown error or missing token yields `null`. -/
def refreshToken {α : Type} (b : Backend α) (rs : RunState) : Option String × RunState :=
  match getItem rs.client.store "refresh_token" with
  | none => (none, rs)
  | some _ =>
    match b.refresh rs.refreshCount with
    | ReqOutcome.err _ => (none, { rs with refreshCount := rs.refreshCount + 1 })
    | ReqOutcome.ok none => (none, { rs with refreshCount := rs.refreshCount + 1 })
    | ReqOutcome.ok (some t) =>
      (some t,
        { rs with
          refreshCount := rs.refreshCount + 1
          client :=
            setAuthToken
              { rs.client with store := setItem rs.client.store "access_token" t }
              (some t) })

/-- One transmission of the original request with a given
`Authorization` header attached to it. -/
def transmit {α : Type} (b : Backend α) (reqAuth : Option String) (rs : RunState) :
    ReqOutcome α × RunState :=
  (b.attempt rs.attemptCount,
    { rs with
      attemptCount := rs.attemptCount + 1
      headersUsed := rs.headersUsed ++ [reqAuth] })

/-- What the caller of `api(...)` finally observes.  `outOfFuel` is an
artefact of bounding the interceptor's recursion; the development proves
it is never reached with fuel ≥ 1. -/
inductive CallResult (α : Type) where
  | ok (a : α)
  | err (e : HttpError)
  | outOfFuel
deriving DecidableEq

/-- The response interceptor (part_001 lines 40–64) applied to a failed
transmission.  `marker` is the one-shot `_retry` flag on the original
request.  On a 401 with the marker unset, the marker is set, a refresh is
attempted; on success the new token is attached to the original request
and the request is re-issued (`api(originalRequest)` re-enters this very
interceptor, now with the marker set — the `fuel` bound models that
recursion); on refresh failure both credential keys are removed and the
original error is rejected.  Anything else rejects the error unchanged. -/
def handleOutcome {α : Type} (b : Backend α) :
    Nat → Bool → ReqOutcome α → RunState → CallResult α × RunState
  | _, _, ReqOutcome.ok a, rs => (CallResult.ok a, rs)
  | fuel, marker, ReqOutcome.err e, rs =>
    if e.status = some 401 ∧ marker = false then
      match refreshToken b rs with
      | (some t, rs') =>
        match fuel with
        | 0 => (CallResult.outOfFuel, rs')
        | fuel' + 1 =>
          let newAuth : Option String := some ("Bearer " ++ t)
          let step := transmit b newAuth rs'
          handleOutcome b fuel' true step.1 step.2
      | (none, rs') =>
        (CallResult.err e,
          { rs' with
            client :=
              { rs'.client with
                store :=
                  removeItem (removeItem rs'.client.store "access_token") "refresh_token" } })
    else (CallResult.err e, rs)

/-- A full call through the api client: transmit the request with the
client's current default header, then let the response interceptor handle
any failure (`_retry` initially unset). -/
def apiRequest {α : Type} (b : Backend α) (cs : ClientState) (fuel : Nat) :
    CallResult α × RunState :=
  let step := transmit b cs.authHeader { client := cs, refreshCount := 0, attemptCount := 0, headersUsed := [] }
  handleOutcome b fuel false step.1 step.2

/-- The result the caller sees when a transmission's outcome is passed
through unchanged. -/
def callResultOf {α : Type} : ReqOutcome α → CallResult α
  | ReqOutcome.ok a => CallResult.ok a
  | ReqOutcome.err e => CallResult.err e

/-- With the one-shot `_retry` marker already set, the interceptor never
refreshes again: any outcome (a second 401 included) is passed through
unchanged.  This is the loop-prevention content of the marker. -/
theorem handleOutcome_marker_set {α : Type} (b : Backend α) (fuel : Nat)
    (out : ReqOutcome α) (rs : RunState) :
    handleOutcome b fuel true out rs = (callResultOf out, rs) := by
  cases out with
  | ok a => simp [handleOutcome, callResultOf]
  | err e => simp [handleOutcome, callResultOf]

/-- With any positive fuel the bounded recursion is already exhaustive:
the one-shot marker stops the interceptor after a single retry, so the
`outOfFuel` artefact is never the result of a call. -/
theorem apiRequest_ne_outOfFuel {α : Type} (b : Backend α) (cs : ClientState) (fuel : Nat) :
    (apiRequest b cs (fuel + 1)).1 ≠ CallResult.outOfFuel := by
  have hfalse : ∀ (out : ReqOutcome α) (rs : RunState),
      (handleOutcome b (fuel + 1) false out rs).1 ≠ CallResult.outOfFuel := by
    intro out rs
    cases out with
    | ok a => simp [handleOutcome]
    | err e =>
      by_cases h401 : e.status = some 401
      · rcases hr : refreshToken b rs with ⟨tok, rs'⟩
        cases tok with
        | some t =>
          rw [handleOutcome]
          simp only [h401, hr, true_and, if_pos rfl]
          rw [handleOutcome_marker_set]
          cases (transmit b (some ("Bearer " ++ t)) rs').1 <;> simp [callResultOf]
        | none =>
          rw [handleOutcome]
          simp [h401, hr]
      · rw [handleOutcome]
        simp [h401]
  exact hfalse (b.attempt 0) _

/-- C1. A request failing with 401 and not yet retried triggers exactly one
`POST /user/refresh`; the fresh token is stored under `access_token`,
attached to the original request, and the request is retried exactly once;
the retried transmission's outcome (a second 401 included, which triggers
no second refresh) is returned to the caller as the call's single result. -/
theorem api_401_refreshes_and_retries_once {α : Type} (b : Backend α) (cs : ClientState)
    (fuel : Nat) (e0 : HttpError) (rt t : String)
    (h0 : b.attempt 0 = ReqOutcome.err e0) (h401 : e0.status = some 401)
    (hrt : getItem cs.store "refresh_token" = some rt)
    (hrf : b.refresh 0 = ReqOutcome.ok (some t)) :
    apiRequest b cs (fuel + 1) =
      (callResultOf (b.attempt 1),
        { client :=
            { store := setItem cs.store "access_token" t
              authHeader := some ("Bearer " ++ t) }
          refreshCount := 1
          attemptCount := 2
          headersUsed := [cs.authHeader, some ("Bearer " ++ t)] }) := by
  have hmain :
      apiRequest b cs (fuel + 1) =
        handleOutcome b fuel true (b.attempt 1)
          { client :=
              { store := setItem cs.store "access_token" t
                authHeader := some ("Bearer " ++ t) }
            refreshCount := 1
            attemptCount := 2
            headersUsed := [cs.authHeader, some ("Bearer " ++ t)] } := by
    simp [apiRequest, transmit, handleOutcome, h0, h401, refreshToken, hrt, hrf, setAuthToken]
  rw [hmain, handleOutcome_marker_set]

/-- Witness for C1: a concrete client state holding a refresh token. -/
def csEx : ClientState :=
  { store := setItem emptyStorage "refresh_token" "rt0", authHeader := some "Bearer old" }

/-- Witness backend for C1: first transmission 401, refresh succeeds,
retry succeeds with payload 42. -/
def bEx : Backend Nat :=
  { attempt := fun k => if k = 0 then ReqOutcome.err { status := some 401 } else ReqOutcome.ok 42
    refresh := fun _ => ReqOutcome.ok (some "newtok") }

theorem api_401_refreshes_and_retries_once_witness :
    apiRequest bEx csEx (1 + 1) =
      (callResultOf (bEx.attempt 1),
        { client :=
            { store := setItem csEx.store "access_token" "newtok"
              authHeader := some ("Bearer " ++ "newtok") }
          refreshCount := 1
          attemptCount := 2
          headersUsed := [csEx.authHeader, some ("Bearer " ++ "newtok")] }) :=
  api_401_refreshes_and_retries_once bEx csEx 1 { status := some 401 } "rt0" "newtok"
    rfl rfl rfl rfl

/-- C7. A network error (no response) or a non-401 HTTP error is rejected
to the caller unchanged: no refresh call, no retry, client state intact. -/
theorem api_non401_propagates_unchanged {α : Type} (b : Backend α) (cs : ClientState)
    (fuel : Nat) (e : HttpError)
    (h0 : b.attempt 0 = ReqOutcome.err e) (h401 : e.status ≠ some 401) :
    apiRequest b cs fuel =
      (CallResult.err e,
        { client := cs, refreshCount := 0, attemptCount := 1, headersUsed := [cs.authHeader] }) := by
  simp [apiRequest, transmit, handleOutcome, h0, h401]

/-- Witness backend for C7: the sole transmission fails with a network
error (no HTTP response at all). -/
def bNetErr : Backend Nat :=
  { attempt := fun _ => ReqOutcome.err { status := none }
    refresh := fun _ => ReqOutcome.ok (some "unused") }

theorem api_non401_propagates_unchanged_witness :
    apiRequest bNetErr csEx 2 =
      (CallResult.err { status := none },
        { client := csEx, refreshCount := 0, attemptCount := 1,
          headersUsed := [csEx.authHeader] }) :=
  api_non401_propagates_unchanged bNetErr csEx 2 { status := none } rfl (by simp)

/-- C6. When the original request got a 401 but the refresh path yields no
token — the `refresh_token` key is absent, the refresh response carries no
`access_token`, or the refresh call throws — the interceptor removes both
credential keys from local storage and rejects the original error; the
request is not retried. -/
theorem api_clears_credentials_on_refresh_failure {α : Type} (b : Backend α)
    (cs : ClientState) (fuel : Nat) (e0 : HttpError)
    (h0 : b.attempt 0 = ReqOutcome.err e0) (h401 : e0.status = some 401)
    (hfail : getItem cs.store "refresh_token" = none ∨
      b.refresh 0 = ReqOutcome.ok none ∨ ∃ e, b.refresh 0 = ReqOutcome.err e) :
    (apiRequest b cs fuel).1 = CallResult.err e0 ∧
    getItem (apiRequest b cs fuel).2.client.store "access_token" = none ∧
    getItem (apiRequest b cs fuel).2.client.store "refresh_token" = none ∧
    (apiRequest b cs fuel).2.attemptCount = 1 := by
  have hk1 : ∀ st : Storage,
      getItem (removeItem (removeItem st "access_token") "refresh_token") "access_token" = none := by
    intro st
    rw [getItem_removeItem_ne _ (by decide), getItem_removeItem_self]
  have hk2 : ∀ st : Storage,
      getItem (removeItem (removeItem st "access_token") "refresh_token") "refresh_token" = none := by
    intro st
    exact getItem_removeItem_self _ _
  rcases hfail with hmiss | hnone | ⟨e, herr⟩
  · simp [apiRequest, transmit, handleOutcome, h0, h401, refreshToken, hmiss, hk1, hk2]
  · cases hrt : getItem cs.store "refresh_token" with
    | none => simp [apiRequest, transmit, handleOutcome, h0, h401, refreshToken, hrt, hk1, hk2]
    | some rt =>
      simp [apiRequest, transmit, handleOutcome, h0, h401, refreshToken, hrt, hnone, hk1, hk2]
  · cases hrt : getItem cs.store "refresh_token" with
    | none => simp [apiRequest, transmit, handleOutcome, h0, h401, refreshToken, hrt, hk1, hk2]
    | some rt =>
      simp [apiRequest, transmit, handleOutcome, h0, h401, refreshToken, hrt, herr, hk1, hk2]

/-- Witness backend for C6: first transmission 401, the refresh response
contains no `access_token`. -/
def bRefreshNone : Backend Nat :=
  { attempt := fun _ => ReqOutcome.err { status := some 401 }
    refresh := fun _ => ReqOutcome.ok none }

theorem api_clears_credentials_on_refresh_failure_witness :
    (apiRequest bRefreshNone csEx 2).1 = CallResult.err { status := some 401 } ∧
    getItem (apiRequest bRefreshNone csEx 2).2.client.store "access_token" = none ∧
    getItem (apiRequest bRefreshNone csEx 2).2.client.store "refresh_token" = none ∧
    (apiRequest bRefreshNone csEx 2).2.attemptCount = 1 :=
  api_clears_credentials_on_refresh_failure bRefreshNone csEx 2 { status := some 401 }
    rfl rfl (Or.inr (Or.inl rfl))

/-! ### Every storage-writing operation of the client -/

/-- The operations across the repository that write browser local
storage.  `loginSuccess` is `handleLogin` on a response carrying an
`access_token` (part_001 line 97); `refreshSuccess` is `refreshToken`'s
success path (part_001 line 28); `interceptorClear` is the interceptor's
failure path (part_001 lines 58–59); `logoutChat` is `handleLogout` in
`Chat.tsx` (lines 233–234) and the `initAuth` failure path (lines 76–77);
`logoutWithSession`, `persistActiveSession` and `clearActiveSession` are
the part_003 variants that also manage the `activeSessionId` key.
`registerAccount` — Modelled from the spec: `Register.tsx` is routed by
`App.tsx` but absent from the sources; per spec §3 the credential pair is
"created at login" and §6 lists no registration response carrying tokens,
so registration writes no credential keys. -/
inductive ClientOp where
  | loginSuccess (accessToken : String)
  | refreshSuccess (newAccessToken : String)
  | interceptorClear
  | logoutChat
  | logoutWithSession
  | persistActiveSession (sessionId : String)
  | clearActiveSession
  | registerAccount

/-- Effect of one client operation on local storage. -/
def applyOp (st : Storage) : ClientOp → Storage
  | ClientOp.loginSuccess t => setItem st "access_token" t
  | ClientOp.refreshSuccess t => setItem st "access_token" t
  | ClientOp.interceptorClear => removeItem (removeItem st "access_token") "refresh_token"
  | ClientOp.logoutChat => removeItem (removeItem st "access_token") "refresh_token"
  | ClientOp.logoutWithSession =>
      removeItem (removeItem (removeItem st "access_token") "refresh_token") "activeSessionId"
  | ClientOp.persistActiveSession sid => setItem st "activeSessionId" sid
  | ClientOp.clearActiveSession => removeItem st "activeSessionId"
  | ClientOp.registerAccount => st

/-- Running a sequence of client operations over storage. -/
def runOps (st : Storage) (ops : List ClientOp) : Storage :=
  ops.foldl applyOp st

theorem applyOp_no_refresh_token (st : Storage) (op : ClientOp)
    (h : getItem st "refresh_token" = none) :
    getItem (applyOp st op) "refresh_token" = none := by
  cases op with
  | loginSuccess t => rw [applyOp, getItem_setItem_ne _ _ (by decide)]; exact h
  | refreshSuccess t => rw [applyOp, getItem_setItem_ne _ _ (by decide)]; exact h
  | interceptorClear => exact getItem_removeItem_self _ _
  | logoutChat => exact getItem_removeItem_self _ _
  | logoutWithSession =>
      rw [applyOp, getItem_removeItem_ne _ (by decide), getItem_removeItem_self]
  | persistActiveSession sid => rw [applyOp, getItem_setItem_ne _ _ (by decide)]; exact h
  | clearActiveSession => rw [applyOp, getItem_removeItem_ne _ (by decide)]; exact h
  | registerAccount => exact h

theorem runOps_no_refresh_token (ops : List ClientOp) :
    ∀ st : Storage, getItem st "refresh_token" = none →
      getItem (runOps st ops) "refresh_token" = none := by
  induction ops with
  | nil => intro st h; exact h
  | cons op ops ih =>
      intro st h
      exact ih (applyOp st op) (applyOp_no_refresh_token st op h)

/-- C9. No client operation ever writes the `refresh_token` key (the
only storage writes are `access_token` and `activeSessionId`); from any
storage lacking a `refresh_token`, every operation sequence leaves the
key absent, `refreshToken` short-circuits to `null` without a network
call, and the 401 interceptor's refresh-and-retry branch can never
succeed: a 401 is rejected with no refresh call and no retry. -/
theorem refresh_token_never_written :
    (∀ (ops : List ClientOp) (st : Storage), getItem st "refresh_token" = none →
      getItem (runOps st ops) "refresh_token" = none) ∧
    (∀ (α : Type) (b : Backend α) (rs : RunState),
      getItem rs.client.store "refresh_token" = none →
      refreshToken b rs = (none, rs)) ∧
    (∀ (α : Type) (b : Backend α) (cs : ClientState) (fuel : Nat) (e0 : HttpError),
      b.attempt 0 = ReqOutcome.err e0 → e0.status = some 401 →
      getItem cs.store "refresh_token" = none →
      (apiRequest b cs fuel).1 = CallResult.err e0 ∧
      (apiRequest b cs fuel).2.attemptCount = 1 ∧
      (apiRequest b cs fuel).2.refreshCount = 0) := by
  refine ⟨fun ops => runOps_no_refresh_token ops, ?_, ?_⟩
  · intro α b rs h
    simp [refreshToken, h]
  · intro α b cs fuel e0 h0 h401 hmiss
    simp [apiRequest, transmit, handleOutcome, h0, h401, refreshToken, hmiss]

/-- A client state created by a login alone: storage holds only an
`access_token`, as `handleLogin` writes nothing else. -/
def csAfterLogin : ClientState :=
  { store := setItem emptyStorage "access_token" "tk", authHeader := some "Bearer tk" }

theorem refresh_token_never_written_witness :
    getItem
      (runOps emptyStorage
        [ClientOp.registerAccount, ClientOp.loginSuccess "tk",
          ClientOp.persistActiveSession "s1", ClientOp.logoutChat]) "refresh_token" = none ∧
    (apiRequest bEx csAfterLogin 2).1 = CallResult.err { status := some 401 } ∧
    (apiRequest bEx csAfterLogin 2).2.attemptCount = 1 ∧
    (apiRequest bEx csAfterLogin 2).2.refreshCount = 0 := by
  refine ⟨refresh_token_never_written.1 _ emptyStorage rfl, ?_⟩
  exact refresh_token_never_written.2.2 Nat bEx csAfterLogin 2 { status := some 401 }
    rfl rfl (by simp [getItem, csAfterLogin, setItem, emptyStorage])

/-! ### Chat messages and history records (Chat.tsx, part_003, part_004) -/

/-- Originator of a message; the source field is named `from`, a Lean
keyword, and is embedded as `sender`. -/
inductive Sender where
  | user
  | bot
deriving DecidableEq

/-- A displayed chat message (`ChatMessage` in Chat.tsx): optional
`isTyping` defaults to absent-is-falsy; `createdAt` is an ISO timestamp,
modelled as the natural number `new Date(x).getTime()` yields. -/
structure ChatMessage where
  text : String
  sender : Sender
  isTyping : Bool := false
  createdAt : Option Nat := none
deriving DecidableEq

/-- One backend history record, `{user_message?, bot_message?, createdAt}`. -/
structure HistoryRecord where
  user_message : Option String := none
  bot_message : Option String := none
  createdAt : Option Nat := none
deriving DecidableEq

/-- JavaScript truthiness of an optional string field (`if
(item.user_message)`): absent or empty is falsy. -/
def truthy : Option String → Bool
  | none => false
  | some s => !s.isEmpty

/-- Flattening of one record (the `flatMap` body, Chat.tsx lines 101–116
and part_004 lines 43–50): up to two messages, the user's then the
bot's, both stamped with the record's `createdAt`. -/
def flattenRecord (item : HistoryRecord) : List ChatMessage :=
  (if truthy item.user_message then
    [{ text := item.user_message.getD "", sender := Sender.user, createdAt := item.createdAt }]
  else []) ++
  (if truthy item.bot_message then
    [{ text := item.bot_message.getD "", sender := Sender.bot, createdAt := item.createdAt }]
  else [])

/-- Flattening of a whole response, in response order. -/
def flattenHistory (records : List HistoryRecord) : List ChatMessage :=
  (records.map flattenRecord).flatten

/-- The message list `fetchChat` in the routed chat component computes
for a session's history (Chat.tsx lines 96–118): the flattened records,
displayed as-is — the component applies no sort. -/
def fetchChatMessages (records : List HistoryRecord) : List ChatMessage :=
  flattenHistory records

/-- The numeric sort key of part_004's comparator:
`new Date(a.createdAt || 0).getTime()`, a missing timestamp counting as
time 0. -/
def msgTime (m : ChatMessage) : Nat := m.createdAt.getD 0

/-- The order the comparator `aTime - bTime` induces. -/
def timeLE (a b : ChatMessage) : Prop := msgTime a ≤ msgTime b

instance : DecidableRel timeLE := fun a b => Nat.decLe (msgTime a) (msgTime b)

instance : IsTotal ChatMessage timeLE := ⟨fun a b => Nat.le_total (msgTime a) (msgTime b)⟩

instance : IsTrans ChatMessage timeLE := ⟨fun _ _ _ => Nat.le_trans⟩

/-- The message list `fetchChatHistory` in the part_004 variant computes
(lines 41–58): flatten, then `Array.prototype.sort` with comparator
`aTime - bTime`.  JS sort is specified stable, and a stable sort by a
total preorder has a unique result, so the stable `List.insertionSort`
models it faithfully. -/
def fetchChatHistoryMessages (records : List HistoryRecord) : List ChatMessage :=
  List.insertionSort timeLE (flattenHistory records)

/-- Boolean check that a message list is in nondecreasing `createdAt`
order. -/
def ascendingByTime : List ChatMessage → Bool
  | [] => true
  | [_] => true
  | a :: b :: t => decide (msgTime a ≤ msgTime b) && ascendingByTime (b :: t)

/-- A history record carrying only a user message at time `t`. -/
def recAt (t : Nat) (txt : String) : HistoryRecord :=
  { user_message := some txt, createdAt := some t }

/-- The spec's `[T2, T0, T1]` scenario with times 2, 0, 1. -/
def unorderedRecords : List HistoryRecord := [recAt 2 "m2", recAt 0 "m0", recAt 1 "m1"]

/-- Counterexample to C2 as stated: the routed component's `fetchChat`
does not sort — on records with createdAt `[2, 0, 1]` the displayed list
keeps the response order `[2, 0, 1]`, which is not ascending. -/
theorem fetchChat_output_not_sorted :
    (fetchChatMessages unorderedRecords).map msgTime = [2, 0, 1] ∧
    ascendingByTime (fetchChatMessages unorderedRecords) = false := by
  constructor
  · rfl
  · rfl

/-- C2 (amended).  Both fetch paths flatten each record into up to two
messages, user before bot.  The routed component's `fetchChat` displays
the flattened records in response order, without sorting; only part_004's
`fetchChatHistory` sorts the flattened list ascending by `createdAt`: its
output is sorted, is a permutation of the flattened response, respects
ties by original order (any correctly-ordered adjacent-in-the-original
pair survives as a sublist), and on the `[T2, T0, T1]` scenario yields
ascending times `[0, 1, 2]`. -/
theorem fetch_paths_flatten_and_variant_sorts :
    (∀ records : List HistoryRecord,
      fetchChatMessages records = (records.map flattenRecord).flatten ∧
      List.Sorted timeLE (fetchChatHistoryMessages records) ∧
      List.Perm (fetchChatHistoryMessages records) (flattenHistory records)) ∧
    (∀ (a b : ChatMessage) (records : List HistoryRecord),
      msgTime a ≤ msgTime b →
      List.Sublist [a, b] (flattenHistory records) →
      List.Sublist [a, b] (fetchChatHistoryMessages records)) ∧
    (fetchChatHistoryMessages unorderedRecords).map msgTime = [0, 1, 2] := by
  refine ⟨?_, ?_, ?_⟩
  · intro records
    exact ⟨rfl, List.sorted_insertionSort timeLE _, List.perm_insertionSort timeLE _⟩
  · intro a b records hab hsub
    exact List.pair_sublist_insertionSort hab hsub
  · rfl

/-- A record producing two messages with tied timestamps, user first. -/
def tiedRecord : HistoryRecord :=
  { user_message := some "q", bot_message := some "a", createdAt := some 5 }

theorem fetch_paths_flatten_and_variant_sorts_witness :
    List.Sublist
      [{ text := "q", sender := Sender.user, createdAt := some 5 },
        { text := "a", sender := Sender.bot, createdAt := some 5 }]
      (fetchChatHistoryMessages [tiedRecord]) :=
  fetch_paths_flatten_and_variant_sorts.2.1
    { text := "q", sender := Sender.user, createdAt := some 5 }
    { text := "a", sender := Sender.bot, createdAt := some 5 }
    [tiedRecord] (by decide) (by decide)

/-! ### The routed chat component's state and session deletion -/

/-- UI state of the routed chat component (Chat.tsx lines 24–27): the
rendered messages, the input box, the session list and the active
session id.  Sessions are an abstract type compared with strict
(in)equality, exactly as the component compares its list elements. -/
structure ChatState (σ : Type) where
  messages : List ChatMessage
  input : String
  sessions : List σ
  activeSessionId : Option σ

/-- `deleteSession` of the routed component (Chat.tsx lines 156–180).
`confirmed` models the `window.confirm` dialog (declined means return
before any effect); `succeeded` models the DELETE call (its catch block
only logs).  On success the session is filtered out of the list; if it
was the active one, the first remaining session becomes active, or — when
none remain — the active id is cleared and the messages emptied. -/
def deleteSession {σ : Type} [DecidableEq σ] (st : ChatState σ) (sessionId : σ)
    (confirmed succeeded : Bool) : ChatState σ :=
  if !confirmed then st
  else if !succeeded then st
  else
    let sessions' := st.sessions.filter (fun s => s != sessionId)
    if st.activeSessionId = some sessionId then
      match st.sessions.filter (fun s => s != sessionId) with
      | first :: _ => { st with sessions := sessions', activeSessionId := some first }
      | [] => { st with sessions := sessions', activeSessionId := none, messages := [] }
    else { st with sessions := sessions' }

/-- The `[A, B, C]` scenario with session A active. -/
def stABC : ChatState String :=
  { messages := [], input := "", sessions := ["A", "B", "C"], activeSessionId := some "A" }

/-- C3.  A confirmed, successful deletion removes the session from the
list; when the deleted session was active, the active id falls back to
the first remaining session, or to no active session with an emptied
message list when none remain; when it was not active, the active id is
untouched.  In particular deleting active A out of `[A, B, C]` leaves
`[B, C]` with B active. -/
theorem deleteSession_removes_and_falls_back :
    (∀ (σ : Type) [DecidableEq σ] (st : ChatState σ) (sid : σ),
      sid ∉ (deleteSession st sid true true).sessions ∧
      (deleteSession st sid true true).sessions = st.sessions.filter (fun s => s != sid) ∧
      (st.activeSessionId = some sid →
        (deleteSession st sid true true).activeSessionId =
          (st.sessions.filter (fun s => s != sid)).head? ∧
        (st.sessions.filter (fun s => s != sid) = [] →
          (deleteSession st sid true true).messages = [])) ∧
      (st.activeSessionId ≠ some sid →
        (deleteSession st sid true true).activeSessionId = st.activeSessionId ∧
        (deleteSession st sid true true).messages = st.messages)) ∧
    deleteSession stABC "A" true true =
      { messages := [], input := "", sessions := ["B", "C"], activeSessionId := some "B" } := by
  constructor
  · intro σ instσ st sid
    refine ⟨?_, ?_, ?_, ?_⟩
    · intro hmem
      have hs : (deleteSession st sid true true).sessions =
          st.sessions.filter (fun s => s != sid) := by
        unfold deleteSession
        by_cases hact : st.activeSessionId = some sid
        · cases hfil : st.sessions.filter (fun s => s != sid) <;> simp [hact, hfil]
        · simp [hact]
      rw [hs, List.mem_filter] at hmem
      simp at hmem
    · unfold deleteSession
      by_cases hact : st.activeSessionId = some sid
      · cases hfil : st.sessions.filter (fun s => s != sid) <;> simp [hact, hfil]
      · simp [hact]
    · intro hact
      unfold deleteSession
      cases hfil : st.sessions.filter (fun s => s != sid) <;> simp [hact, hfil]
    · intro hact
      unfold deleteSession
      simp [hact]
  · rfl

theorem deleteSession_removes_and_falls_back_witness :
    ("A" ∉ (deleteSession stABC "A" true true).sessions) ∧
    (deleteSession stABC "A" true true).activeSessionId =
      (stABC.sessions.filter (fun s => s != "A")).head? :=
  ⟨(deleteSession_removes_and_falls_back.1 String stABC "A").1,
    ((deleteSession_removes_and_falls_back.1 String stABC "A").2.2.1 rfl).1⟩

/-! ### The optimistic send flow (Chat.tsx lines 183–225) -/

/-- Outcome of the `POST /chat` request: a reply payload
(`res.data.reply`) or a thrown error. -/
inductive SendResult where
  | reply (text : String)
  | failure
deriving DecidableEq

/-- The transient typing placeholder (line 198): marked `isTyping`, no
timestamp. -/
def typingMessage : ChatMessage :=
  { text := "Typing...", sender := Sender.bot, isTyping := true }

/-- Phase 1 of `sendMessage` (lines 186–199), run only when the guard
passes: append the user's message stamped with the client clock, clear
the input, append the typing placeholder. -/
def sendMessageStart {σ : Type} (st : ChatState σ) (now : Nat) : ChatState σ :=
  { st with
      messages := st.messages ++
        [{ text := st.input, sender := Sender.user, createdAt := some now }, typingMessage]
      input := "" }

/-- The completion filter `prev.filter((m) => !m.isTyping)` (lines 208
and 217). -/
def removeTyping (msgs : List ChatMessage) : List ChatMessage :=
  msgs.filter (fun m => !m.isTyping)

/-- Phase 2 of `sendMessage` (lines 201–224): on a reply, drop every
typing placeholder and append the bot's message; on a thrown error, drop
every typing placeholder and append the locally synthesized error
bubble — in neither case is the request re-issued. -/
def sendMessageFinish {σ : Type} (st : ChatState σ) (res : SendResult) (now : Nat) :
    ChatState σ :=
  match res with
  | SendResult.reply r =>
    { st with
        messages := removeTyping st.messages ++
          [{ text := r, sender := Sender.bot, createdAt := some now }] }
  | SendResult.failure =>
    { st with
        messages := removeTyping st.messages ++
          [{ text := "Error sending message", sender := Sender.bot, createdAt := some now }] }

/-- Truthiness of `input.trim()`: the trimmed string is empty exactly
when every character of the input is whitespace, which is how the check
is embedded (avoiding `String.trim`, whose well-founded recursion does
not evaluate inside the kernel). -/
def trimmedIsEmpty (s : String) : Bool := s.data.all Char.isWhitespace

/-- The guard at line 184, `if (!input.trim() || !activeSessionId)
return;`: a whitespace-only input trims to the empty string, which is
falsy, and a `null` active session id is falsy. -/
def sendGuardFails {σ : Type} (st : ChatState σ) : Bool :=
  trimmedIsEmpty st.input || st.activeSessionId.isNone

/-- The whole `sendMessage` flow for one request whose outcome is `res`,
paired with the number of network requests issued; `now₁` and `now₂`
model the client clock at send and at completion time. -/
def sendMessage {σ : Type} (st : ChatState σ) (res : SendResult) (now₁ now₂ : Nat) :
    ChatState σ × Nat :=
  if sendGuardFails st then (st, 0)
  else (sendMessageFinish (sendMessageStart st now₁) res now₂, 1)

theorem removeTyping_append (l₁ l₂ : List ChatMessage) :
    removeTyping (l₁ ++ l₂) = removeTyping l₁ ++ removeTyping l₂ := by
  simp [removeTyping]

/-- C5.  With a non-whitespace input `M` and an active session, sending
first appends the user's message stamped with the client clock and the
typing placeholder and clears the input; on a reply `R` the placeholders
are dropped and the bot's message appended, so the list ends in
`[{M, user}, {R, bot}]`; on failure the placeholders are dropped and the
synthesized error bubble appended instead, with exactly one request
issued either way — no automatic retry. -/
theorem sendMessage_round_trip :
    ∀ (σ : Type) (st : ChatState σ) (M R : String) (now₁ now₂ : Nat),
      st.input = M → trimmedIsEmpty st.input = false → st.activeSessionId.isNone = false →
      (sendMessageStart st now₁).messages =
        st.messages ++
          [{ text := M, sender := Sender.user, createdAt := some now₁ }, typingMessage] ∧
      (sendMessageStart st now₁).input = "" ∧
      sendMessage st (SendResult.reply R) now₁ now₂ =
        ({ st with
            messages := removeTyping st.messages ++
              [{ text := M, sender := Sender.user, createdAt := some now₁ },
                { text := R, sender := Sender.bot, createdAt := some now₂ }]
            input := "" }, 1) ∧
      sendMessage st SendResult.failure now₁ now₂ =
        ({ st with
            messages := removeTyping st.messages ++
              [{ text := M, sender := Sender.user, createdAt := some now₁ },
                { text := "Error sending message", sender := Sender.bot,
                  createdAt := some now₂ }]
            input := "" }, 1) := by
  intro σ st M R now₁ now₂ hM htrim hact
  subst hM
  have hguard : sendGuardFails st = false := by
    simp [sendGuardFails, htrim, hact]
  refine ⟨rfl, rfl, ?_, ?_⟩
  · simp [sendMessage, hguard, sendMessageStart, sendMessageFinish, removeTyping_append,
      removeTyping, typingMessage]
  · simp [sendMessage, hguard, sendMessageStart, sendMessageFinish, removeTyping_append,
      removeTyping, typingMessage]

/-- Witness state for the send flow: input "hi", session "A" active. -/
def stSend : ChatState String :=
  { messages := [], input := "hi", sessions := ["A"], activeSessionId := some "A" }

theorem sendMessage_round_trip_witness :
    sendMessage stSend (SendResult.reply "yo") 3 4 =
      ({ stSend with
          messages := removeTyping stSend.messages ++
            [{ text := "hi", sender := Sender.user, createdAt := some 3 },
              { text := "yo", sender := Sender.bot, createdAt := some 4 }]
          input := "" }, 1) :=
  (sendMessage_round_trip String stSend "hi" "yo" 3 4 rfl (by decide) rfl).2.2.1

/-- C10.  When the trimmed input is empty or no session is active, the
guard returns before any effect: the state — messages, input, session
list, active id — is unchanged and no network request is issued. -/
theorem sendMessage_guard_is_noop :
    ∀ (σ : Type) (st : ChatState σ) (res : SendResult) (now₁ now₂ : Nat),
      trimmedIsEmpty st.input = true ∨ st.activeSessionId = none →
      sendMessage st res now₁ now₂ = (st, 0) := by
  intro σ st res now₁ now₂ h
  have hguard : sendGuardFails st = true := by
    rcases h with h | h
    · simp [sendGuardFails, h]
    · simp [sendGuardFails, h]
  simp [sendMessage, hguard]

/-- Witness state for the guard: whitespace-only input with an active
session. -/
def stBlank : ChatState String :=
  { messages := [typingMessage], input := "   ", sessions := ["A"],
    activeSessionId := some "A" }

theorem sendMessage_guard_is_noop_witness :
    sendMessage stBlank (SendResult.reply "yo") 3 4 = (stBlank, 0) :=
  sendMessage_guard_is_noop String stBlank (SendResult.reply "yo") 3 4 (Or.inl (by decide))

/-! ### Interleaved sends and the typing placeholder -/

/-- An event of the send flow: the user submits `text` (Enter or the send
button), or an outstanding request completes with `res`. -/
inductive SendEvent where
  | send (text : String) (now : Nat)
  | finish (res : SendResult) (now : Nat)

/-- The chat state together with the number of outstanding `POST /chat`
requests. -/
structure SendSys (σ : Type) where
  chat : ChatState σ
  outstanding : Nat

/-- One step of the send flow.  A submit types `text` into the input and
runs `sendMessage` up to its await point: nothing happens when the guard
fails, otherwise the optimistic phase runs and one more request is
outstanding.  A completion resumes one waiting `sendMessage` after its
await: its filter-and-append phase runs (completions with nothing
outstanding cannot occur and are ignored). -/
def sendSysStep {σ : Type} (sys : SendSys σ) : SendEvent → SendSys σ
  | SendEvent.send text now =>
    let st := { sys.chat with input := text }
    if sendGuardFails st then { sys with chat := st }
    else { chat := sendMessageStart st now, outstanding := sys.outstanding + 1 }
  | SendEvent.finish res now =>
    match sys.outstanding with
    | 0 => sys
    | n + 1 => { chat := sendMessageFinish sys.chat res now, outstanding := n }

/-- Folding a sequence of send-flow events. -/
def runSendSys {σ : Type} (sys : SendSys σ) (evs : List SendEvent) : SendSys σ :=
  evs.foldl sendSysStep sys

/-- Number of typing placeholders on display. -/
def typingCount (msgs : List ChatMessage) : Nat :=
  (msgs.filter (fun m => m.isTyping)).length

theorem typingCount_append (l₁ l₂ : List ChatMessage) :
    typingCount (l₁ ++ l₂) = typingCount l₁ + typingCount l₂ := by
  simp [typingCount]

theorem typingCount_removeTyping (msgs : List ChatMessage) :
    typingCount (removeTyping msgs) = 0 := by
  induction msgs with
  | nil => rfl
  | cons m t ih =>
    cases hm : m.isTyping with
    | false =>
      have hstep : removeTyping (m :: t) = m :: removeTyping t := by
        simp [removeTyping, hm]
      rw [hstep]
      simpa [typingCount, hm] using ih
    | true =>
      have hstep : removeTyping (m :: t) = removeTyping t := by
        simp [removeTyping, hm]
      rw [hstep]
      exact ih

theorem typingCount_finish {σ : Type} (st : ChatState σ) (res : SendResult) (now : Nat) :
    typingCount (sendMessageFinish st res now).messages = 0 := by
  cases res with
  | reply r =>
    have h : (sendMessageFinish st (SendResult.reply r) now).messages =
        removeTyping st.messages ++
          [{ text := r, sender := Sender.bot, createdAt := some now }] := rfl
    rw [h, typingCount_append, typingCount_removeTyping]
    rfl
  | failure =>
    have h : (sendMessageFinish st SendResult.failure now).messages =
        removeTyping st.messages ++
          [{ text := "Error sending message", sender := Sender.bot,
              createdAt := some now }] := rfl
    rw [h, typingCount_append, typingCount_removeTyping]
    rfl

theorem sendSysStep_bound {σ : Type} (sys : SendSys σ) (ev : SendEvent)
    (h : typingCount sys.chat.messages ≤ sys.outstanding) :
    typingCount (sendSysStep sys ev).chat.messages ≤ (sendSysStep sys ev).outstanding := by
  cases ev with
  | send text now =>
    by_cases hg : sendGuardFails { sys.chat with input := text }
    · simpa [sendSysStep, hg, typingCount] using h
    · have : typingCount (sendMessageStart { sys.chat with input := text } now).messages =
          typingCount sys.chat.messages + 1 := by
        simp [sendMessageStart, typingCount_append, typingCount, typingMessage]
      simp only [sendSysStep, hg, if_false, Bool.false_eq_true]
      rw [this]
      exact Nat.succ_le_succ h
  | finish res now =>
    cases ho : sys.outstanding with
    | zero => simpa [sendSysStep, ho, typingCount] using h
    | succ n => simp [sendSysStep, ho, typingCount_finish]

/-- C8.  The number of typing placeholders on display never exceeds the
number of outstanding requests, over every sequence of sends and
completions; each guarded-through send appends exactly one placeholder
(the user message it also appends is not one), and every completion path
first drops all placeholders and appends a non-typing message, leaving
zero placeholders. -/
theorem typing_placeholders_bounded :
    (∀ (σ : Type) (sys : SendSys σ) (evs : List SendEvent),
      typingCount sys.chat.messages ≤ sys.outstanding →
      typingCount (runSendSys sys evs).chat.messages ≤ (runSendSys sys evs).outstanding) ∧
    (∀ (σ : Type) (st : ChatState σ) (now : Nat),
      (sendMessageStart st now).messages =
        st.messages ++
          [{ text := st.input, sender := Sender.user, createdAt := some now }, typingMessage] ∧
      typingCount (sendMessageStart st now).messages = typingCount st.messages + 1) ∧
    (∀ (σ : Type) (st : ChatState σ) (res : SendResult) (now : Nat),
      typingCount (sendMessageFinish st res now).messages = 0) := by
  refine ⟨?_, ?_, ?_⟩
  · intro σ sys evs
    induction evs generalizing sys with
    | nil => intro h; exact h
    | cons ev evs ih =>
      intro h
      exact ih (sendSysStep sys ev) (sendSysStep_bound sys ev h)
  · intro σ st now
    exact ⟨rfl, by simp [sendMessageStart, typingCount_append, typingCount, typingMessage]⟩
  · intro σ st res now
    exact typingCount_finish st res now

/-- Witness system: no messages, nothing outstanding. -/
def sysInit : SendSys String :=
  { chat := { messages := [], input := "", sessions := ["A"], activeSessionId := some "A" },
    outstanding := 0 }

theorem typing_placeholders_bounded_witness :
    typingCount
        (runSendSys sysInit
          [SendEvent.send "a" 1, SendEvent.send "b" 2,
            SendEvent.finish (SendResult.reply "r") 3]).chat.messages ≤
      (runSendSys sysInit
        [SendEvent.send "a" 1, SendEvent.send "b" 2,
          SendEvent.finish (SendResult.reply "r") 3]).outstanding :=
  typing_placeholders_bounded.1 String sysInit
    [SendEvent.send "a" 1, SendEvent.send "b" 2, SendEvent.finish (SendResult.reply "r") 3]
    (Nat.le_refl 0)

/-! ### Session switching and history fetches (Chat.tsx lines 90–136, 262–267) -/

/-- State of the session/message synchronization: the rendered messages,
the active session id, and the ids with an in-flight history fetch. -/
structure UiState (σ : Type) where
  messages : List ChatMessage
  activeSessionId : Option σ
  pending : List σ

/-- The initial state: no messages, no active session, nothing in
flight. -/
def uiInit {σ : Type} : UiState σ :=
  { messages := [], activeSessionId := none, pending := [] }

/-- An event of the synchronization loop: a sidebar click switching to
session `s` (lines 262–267: guarded by `s !== activeSessionId`, it clears
the messages and sets the active id, upon which the effect at lines
90–136 clears again and starts the history fetch), or the resolution of
the in-flight fetch for `s` with the backend's records (lines 96–118: the
handler stores the flattened records unconditionally — it does not
re-check that `s` is still the active session). -/
inductive UiEvent (σ : Type) where
  | switch (s : σ)
  | resolve (s : σ) (records : List HistoryRecord)

/-- One step of the synchronization loop. -/
def uiStep {σ : Type} [DecidableEq σ] (st : UiState σ) : UiEvent σ → UiState σ
  | UiEvent.switch s =>
    if st.activeSessionId = some s then st
    else { messages := [], activeSessionId := some s, pending := st.pending ++ [s] }
  | UiEvent.resolve s records =>
    if s ∈ st.pending then
      { st with pending := st.pending.erase s, messages := flattenHistory records }
    else st

/-- Folding a sequence of synchronization events. -/
def runUi {σ : Type} [DecidableEq σ] (st : UiState σ) (evs : List (UiEvent σ)) : UiState σ :=
  evs.foldl uiStep st

/-- An event trace is faithful to the backend when every fetch resolution
for session `s` carries that session's stored history `hist s`. -/
def respectsHist {σ : Type} [DecidableEq σ] (hist : σ → List HistoryRecord) :
    List (UiEvent σ) → Bool
  | [] => true
  | UiEvent.switch _ :: evs => respectsHist hist evs
  | UiEvent.resolve s records :: evs =>
    decide (records = hist s) && respectsHist hist evs

/-- The displayed messages correspond to the active session: they are
empty (just cleared) or exactly the flattened history of the active
session id. -/
def correspondsB {σ : Type} [DecidableEq σ] (hist : σ → List HistoryRecord)
    (st : UiState σ) : Bool :=
  st.messages.isEmpty ||
    (match st.activeSessionId with
      | some s => decide (st.messages = flattenHistory (hist s))
      | none => false)

/-- Backend history for the counterexample: session 0 has one record,
session 1 has none. -/
def histCex : Nat → List HistoryRecord :=
  fun s => if s = 0 then [{ user_message := some "hello", createdAt := some 1 }] else []

/-- The race the component does not guard against: switch to session 0,
switch to session 1 while 0's fetch is still in flight, then 0's fetch
resolves. -/
def staleTrace : List (UiEvent Nat) :=
  [UiEvent.switch 0, UiEvent.switch 1, UiEvent.resolve 0 (histCex 0)]

/-- Counterexample to C4 as stated: along a backend-faithful trace the
fetch for the previously active session 0 resolves after the switch to
session 1 and overwrites the message list, leaving session 0's messages
on display while session 1 is active — the displayed list does not
correspond to the active session id. -/
theorem stale_fetch_breaks_correspondence :
    respectsHist histCex staleTrace = true ∧
    (runUi uiInit staleTrace).activeSessionId = some 1 ∧
    (runUi uiInit staleTrace).messages =
      [{ text := "hello", sender := Sender.user, createdAt := some 1 }] ∧
    correspondsB histCex (runUi uiInit staleTrace) = false := by
  refine ⟨rfl, rfl, rfl, rfl⟩

/-- A trace is overlap-free when every switch happens with no fetch in
flight and every resolution happens while its session is still the active
one, sole in flight, carrying that session's stored history — the
discipline of awaiting each fetch before the next action. -/
def alignedB {σ : Type} [DecidableEq σ] (hist : σ → List HistoryRecord) :
    UiState σ → List (UiEvent σ) → Bool
  | _, [] => true
  | st, UiEvent.switch s :: evs =>
    st.pending.isEmpty && alignedB hist (uiStep st (UiEvent.switch s)) evs
  | st, UiEvent.resolve s records :: evs =>
    decide (st.activeSessionId = some s) && decide (st.pending = [s]) &&
      decide (records = hist s) && alignedB hist (uiStep st (UiEvent.resolve s records)) evs

/-- The inductive invariant of the overlap-free loop. -/
def UiInv {σ : Type} [DecidableEq σ] (hist : σ → List HistoryRecord)
    (st : UiState σ) : Prop :=
  (st.pending = [] → correspondsB hist st = true) ∧
  (∀ s, st.pending = [s] → st.messages = [] ∧ st.activeSessionId = some s) ∧
  st.pending.length ≤ 1

theorem uiInv_switch {σ : Type} [DecidableEq σ] (hist : σ → List HistoryRecord)
    (st : UiState σ) (s : σ) (hinv : UiInv hist st) (hp : st.pending = []) :
    UiInv hist (uiStep st (UiEvent.switch s)) := by
  by_cases hact : st.activeSessionId = some s
  · simpa [uiStep, hact] using hinv
  · refine ⟨?_, ?_, ?_⟩
    · intro hnil
      rw [uiStep] at hnil ⊢
      simp [hact, hp] at hnil
    · intro s' hs'
      rw [uiStep] at hs' ⊢
      simp only [if_neg hact] at hs' ⊢
      simp [hp] at hs'
      simp [hs']
    · rw [uiStep]
      simp [hact, hp]

theorem uiInv_resolve {σ : Type} [DecidableEq σ] (hist : σ → List HistoryRecord)
    (st : UiState σ) (s : σ) (records : List HistoryRecord)
    (hact : st.activeSessionId = some s) (hp : st.pending = [s])
    (hr : records = hist s) :
    UiInv hist (uiStep st (UiEvent.resolve s records)) := by
  have hmem : s ∈ st.pending := by rw [hp]; exact List.mem_singleton.mpr rfl
  refine ⟨?_, ?_, ?_⟩
  · intro _
    rw [uiStep]
    simp [hmem, correspondsB, hact, hr]
  · intro s' hs'
    rw [uiStep] at hs'
    simp [hmem, hp] at hs'
  · rw [uiStep]
    simp [hmem, hp]

theorem uiInv_run {σ : Type} [DecidableEq σ] (hist : σ → List HistoryRecord)
    (evs : List (UiEvent σ)) :
    ∀ st : UiState σ, UiInv hist st → alignedB hist st evs = true →
      UiInv hist (runUi st evs) := by
  induction evs with
  | nil => intro st h _; exact h
  | cons ev evs ih =>
    intro st hinv hal
    cases ev with
    | switch s =>
      rw [alignedB, Bool.and_eq_true] at hal
      have hp : st.pending = [] := by simpa using hal.1
      exact ih (uiStep st (UiEvent.switch s)) (uiInv_switch hist st s hinv hp) hal.2
    | resolve s records =>
      rw [alignedB, Bool.and_eq_true, Bool.and_eq_true, Bool.and_eq_true] at hal
      have hact : st.activeSessionId = some s := of_decide_eq_true hal.1.1.1
      have hp : st.pending = [s] := of_decide_eq_true hal.1.1.2
      have hr : records = hist s := of_decide_eq_true hal.1.2
      exact ih (uiStep st (UiEvent.resolve s records))
        (uiInv_resolve hist st s records hact hp hr) hal.2

theorem uiInv_corresponds {σ : Type} [DecidableEq σ] (hist : σ → List HistoryRecord)
    (st : UiState σ) (h : UiInv hist st) : correspondsB hist st = true := by
  rcases h with ⟨h1, h2, h3⟩
  cases hp : st.pending with
  | nil => exact h1 hp
  | cons s rest =>
    cases rest with
    | nil =>
      have hm := (h2 s hp).1
      simp [correspondsB, hm]
    | cons s' rest' =>
      rw [hp] at h3
      simp at h3

/-- C4 (amended).  The active session is a single optional id, so at most
one session is active by construction; every switch to a session that is
not already active immediately clears the displayed messages and installs
the new id; and along every overlap-free, backend-faithful trace — no
switch while a fetch is in flight, each fetch resolving while its session
is still active, as happens when each fetch is awaited before the next
action — the displayed messages always correspond to the active session:
empty, or exactly the flattened history of the active id.  (Without the
overlap-free discipline the correspondence fails: a stale fetch may
overwrite a newer session's view, the race the spec concedes.) -/
theorem ui_sync_invariant_without_overlap :
    (∀ (σ : Type) [DecidableEq σ] (hist : σ → List HistoryRecord)
      (evs : List (UiEvent σ)),
      alignedB hist uiInit evs = true →
      correspondsB hist (runUi uiInit evs) = true) ∧
    (∀ (σ : Type) [DecidableEq σ] (st : UiState σ) (s : σ),
      st.activeSessionId ≠ some s →
      (uiStep st (UiEvent.switch s)).messages = [] ∧
      (uiStep st (UiEvent.switch s)).activeSessionId = some s) := by
  constructor
  · intro σ instσ hist evs hal
    have hinit : UiInv hist (uiInit : UiState σ) := by
      refine ⟨fun _ => rfl, ?_, ?_⟩
      · intro s hs
        simp [uiInit] at hs
      · simp [uiInit]
    exact uiInv_corresponds hist _ (uiInv_run hist evs uiInit hinit hal)
  · intro σ instσ st s hact
    rw [uiStep]
    simp [hact]

/-- Witness trace for the overlap-free discipline: each fetch resolves
before the next switch. -/
def alignedTrace : List (UiEvent Nat) :=
  [UiEvent.switch 0, UiEvent.resolve 0 (histCex 0),
    UiEvent.switch 1, UiEvent.resolve 1 (histCex 1)]

theorem ui_sync_invariant_without_overlap_witness :
    correspondsB histCex (runUi uiInit alignedTrace) = true ∧
    (uiStep (uiInit : UiState Nat) (UiEvent.switch 5)).messages = [] :=
  ⟨ui_sync_invariant_without_overlap.1 Nat histCex alignedTrace rfl,
    (ui_sync_invariant_without_overlap.2 Nat uiInit 5 (by decide)).1⟩

end ChatbotFrontend
